import Mathlib

/-
  Verification development for the terminal host of this repository.

  Shallow embedding of:
    - src/crates/terminal/src/terminal.rs  (ZedTerminal, TerminalView, TerminalEl)
    - src/crates/collab/src/db/tables/channel_buffer_collaborator.rs (Model)

  External library types that the source instantiates (alacritty_terminal
  Program, PtyConfig, Config, SizeInfo, Term, FairMutex, EventLoop, Notifier,
  and the gpui geometry, font and shaping helpers) are embedded here to the
  extent the source exercises them; where the source never exercises a part
  of their behaviour, the embedding records the values the source passes and
  the objects the source wires together. Machine floats in SizeInfo only ever
  carry the whole numbers 100, 5 and 0 in this program, so they are embedded
  as naturals (all arithmetic the source performs on them is exact).
-/

namespace Zed

/-- Embeds alacritty Program; the source only uses the Just variant. -/
inductive Program where
  | just (program : String)
deriving DecidableEq, Repr

/-- Embeds alacritty PtyConfig: shell, working_directory, hold. -/
structure PtyConfig where
  shell : Option Program
  working_directory : Option String
  hold : Bool
deriving DecidableEq, Repr

/-- Embeds alacritty Config; the source populates only pty_config and the
rest by Default, none of which the embedded behaviour reads. -/
structure Config where
  pty_config : PtyConfig
deriving DecidableEq, Repr

/-- Embeds alacritty SizeInfo constructor arguments. In the source every
field is an f32 holding a whole number, embedded as Nat. -/
structure SizeInfo where
  width : Nat
  height : Nat
  cell_width : Nat
  cell_height : Nat
  padding_x : Nat
  padding_y : Nat
  dynamic_padding : Bool
deriving DecidableEq, Repr

def SizeInfo.new (w h cw ch px py : Nat) (dp : Bool) : SizeInfo :=
  { width := w, height := h, cell_width := cw, cell_height := ch,
    padding_x := px, padding_y := py, dynamic_padding := dp }

/-- Column count derived from a SizeInfo, as alacritty derives it
(minimum of two columns). -/
def SizeInfo.columns (s : SizeInfo) : Nat :=
  max ((s.width - 2 * s.padding_x) / s.cell_width) 2

/-- Screen line count derived from a SizeInfo, as alacritty derives it
(minimum of one line). -/
def SizeInfo.screen_lines (s : SizeInfo) : Nat :=
  max ((s.height - 2 * s.padding_y) / s.cell_height) 1

/-- Embeds event_listener::ZedTerminalHandle, a fieldless struct constructed
in the source as ZedTerminalHandle {} (its module body is not part of the
given sources; only the fieldless construction is visible and embedded). -/
inductive ZedTerminalHandle where
  | mk
deriving DecidableEq, Repr

/-- Cursor position of the in-memory terminal. -/
structure Cursor where
  line : Nat
  col : Nat
deriving DecidableEq, Repr

/-- Embeds the observable state of alacritty Term: the visible grid of cells
(row-major rows of characters), the cursor, the scrollback, and the grid
dimensions. -/
structure TermState where
  cols : Nat
  rows : Nat
  cells : List (List Char)
  cursor : Cursor
  scrollback : List (List Char)
deriving DecidableEq, Repr

/-- A fresh visible grid: rows times cols blank cells. -/
def mkCells (rows cols : Nat) : List (List Char) :=
  List.replicate rows (List.replicate cols ' ')

/-- Embeds Term::new: a fresh terminal whose grid dimensions come from the
SizeInfo it is given. -/
def Term.new (_config : Config) (size : SizeInfo) (_proxy : ZedTerminalHandle) : TermState :=
  { cols := size.columns
    rows := size.screen_lines
    cells := mkCells size.screen_lines size.columns
    cursor := { line := 0, col := 0 }
    scrollback := [] }

/-- Embeds alacritty sync::FairMutex, a mutual exclusion lock with a fair
(FIFO ticket) admission discipline; the lock implementation lives in the
external alacritty_terminal crate. Modelled from the spec: the spec
describes it as a fairness-guaranteeing mutual-exclusion lock, embedded
here as a ticket lock (arcId identifies the shared Arc allocation so that
distinct handles to one allocation can be recognised). -/
structure FairMutex (α : Type) where
  arcId : Nat
  nowServing : Nat
  nextTicket : Nat
  data : α
deriving DecidableEq, Repr

def FairMutex.new (arcId : Nat) (a : α) : FairMutex α :=
  { arcId := arcId, nowServing := 0, nextTicket := 0, data := a }

/-- A thread draws a ticket when it starts waiting for the lock. -/
def FairMutex.acquireTicket (m : FairMutex α) : FairMutex α × Nat :=
  ({ m with nextTicket := m.nextTicket + 1 }, m.nextTicket)

/-- The holder of ticket t owns the lock exactly when t is being served. -/
def FairMutex.holds (m : FairMutex α) (ticket : Nat) : Prop :=
  m.nowServing = ticket

/-- Releasing the lock admits the next ticket in FIFO order. -/
def FairMutex.release (m : FairMutex α) : FairMutex α :=
  { m with nowServing := m.nowServing + 1 }

def FairMutex.releaseN (m : FairMutex α) : Nat → FairMutex α
  | 0 => m
  | n + 1 => (m.release).releaseN n

/-- Embeds the spawned pty returned by tty::new: it records the PtyConfig
and SizeInfo it was spawned from, and the window size negotiated with the
kernel (taken from that SizeInfo). -/
structure Pty where
  config : PtyConfig
  spawn_size : SizeInfo
  cols : Nat
  rows : Nat
deriving DecidableEq, Repr

/-- Embeds tty::new. Whether the OS can allocate a pty and execute the shell
is external state, abstracted as the spawnOk oracle; on success the pty is
attached to exactly the config and size that were passed in. -/
def tty_new (spawnOk : PtyConfig → SizeInfo → Bool) (c : PtyConfig) (s : SizeInfo) : Option Pty :=
  if spawnOk c s then
    some { config := c, spawn_size := s, cols := s.columns, rows := s.screen_lines }
  else
    none

/-- Embeds the mio channel sender feeding the event loop. The only state of
the sender the embedded behaviour depends on is whether the consuming loop
has stopped. -/
structure Sender where
  consumer_stopped : Bool
deriving DecidableEq, Repr

/-- Embeds alacritty event_loop::EventLoop as the wiring the source performs:
the shared term handle, the event proxy, the pty it drains, and the two
flags passed at construction. -/
structure EventLoop where
  term : FairMutex TermState
  proxy : ZedTerminalHandle
  pty : Pty
  hold : Bool
  ref_test : Bool
deriving DecidableEq, Repr

def EventLoop.new (term : FairMutex TermState) (proxy : ZedTerminalHandle)
    (pty : Pty) (hold : Bool) (ref_test : Bool) : EventLoop :=
  { term := term, proxy := proxy, pty := pty, hold := hold, ref_test := ref_test }

/-- The channel of a freshly constructed event loop: its consumer is running. -/
def EventLoop.channel (_el : EventLoop) : Sender :=
  { consumer_stopped := false }

/-- Embeds event_loop::Notifier, the newtype around the loop sender. -/
structure Notifier where
  sender : Sender
deriving DecidableEq, Repr

/-- Embeds the ZedTerminal struct. The loop_tx, term and title fields are
the struct fields of the source; event_loop and term_size_info are ghost
fields recording, for verification, the event loop the constructor wired up
and the SizeInfo it passed to Term::new. -/
structure ZedTerminal where
  loop_tx : Notifier
  term : FairMutex TermState
  title : String
  event_loop : EventLoop
  term_size_info : SizeInfo
deriving DecidableEq, Repr

/-- Outcome of running ZedTerminal::new: the Rust function returns a bare
ZedTerminal, so the only failure mode is the panic raised by the expect on
tty::new. -/
inductive NewResult where
  | ok (t : ZedTerminal)
  | panicked (msg : String)
deriving DecidableEq, Repr

/-- The PtyConfig literal built inside ZedTerminal::new: shell zsh, no
working directory, hold false. -/
def ZedTerminal.pty_config_used : PtyConfig :=
  { shell := some (Program.just "zsh"), working_directory := none, hold := false }

/-- The SizeInfo literal built inside ZedTerminal::new. -/
def ZedTerminal.size_info_used : SizeInfo :=
  SizeInfo.new 100 100 5 5 0 0 false

/-- Embeds ZedTerminal::new. It takes no configuration parameters; spawnOk
abstracts the OS outcome of tty::new and arcId names the fresh Arc
allocation holding the FairMutex. The expect on tty::new is embedded as the
panicked outcome carrying the expect message. -/
def ZedTerminal.new (spawnOk : PtyConfig → SizeInfo → Bool) (arcId : Nat) : NewResult :=
  let zed_proxy := ZedTerminalHandle.mk
  let pty_config := ZedTerminal.pty_config_used
  let config : Config := { pty_config := pty_config }
  let size_info := ZedTerminal.size_info_used
  let term := Term.new config size_info zed_proxy
  let term := FairMutex.new arcId term
  match tty_new spawnOk pty_config size_info with
  | none => NewResult.panicked "Could not create tty"
  | some pty =>
    let event_loop := EventLoop.new term zed_proxy pty pty_config.hold false
    let loop_tx : Notifier := { sender := event_loop.channel }
    NewResult.ok
      { loop_tx := loop_tx
        term := term
        title := "Terminal"
        event_loop := event_loop
        term_size_info := size_info }

/-- Outcome of running ZedTerminal::deploy. -/
inductive DeployResult where
  | propagated
  | noop
  | panicked (msg : String)
  | deployed (t : ZedTerminal)
deriving DecidableEq, Repr

def DeployResult.isDeployed : DeployResult → Bool
  | DeployResult.deployed _ => true
  | _ => false

/-- Embeds ZedTerminal::deploy. is_remote abstracts project.is_remote(),
create_buffer_ok abstracts whether project.create_buffer succeeds (log_err
turns its failure into None, and the body then does nothing). Only when the
project is local and the buffer was created is a terminal constructed and
added to the workspace as a view item. -/
def ZedTerminal.deploy (is_remote : Bool) (create_buffer_ok : Bool)
    (spawnOk : PtyConfig → SizeInfo → Bool) (arcId : Nat) : DeployResult :=
  if is_remote then
    DeployResult.propagated
  else if create_buffer_ok then
    match ZedTerminal.new spawnOk arcId with
    | NewResult.panicked m => DeployResult.panicked m
    | NewResult.ok t => DeployResult.deployed t
  else
    DeployResult.noop

/-- A spawn oracle under which the OS always spawns the pty. -/
def alwaysSpawn : PtyConfig → SizeInfo → Bool := fun _ _ => true

/-- A spawn oracle under which the OS cannot allocate a pty. -/
def neverSpawn : PtyConfig → SizeInfo → Bool := fun _ _ => false

/-- The terminal state built by Term::new inside ZedTerminal::new. -/
def term0 : TermState :=
  Term.new { pty_config := ZedTerminal.pty_config_used } ZedTerminal.size_info_used ZedTerminalHandle.mk

def fm0 : FairMutex TermState := FairMutex.new 0 term0

/-- The pty produced by tty::new under the always succeeding oracle. -/
def pty0 : Pty :=
  { config := ZedTerminal.pty_config_used
    spawn_size := ZedTerminal.size_info_used
    cols := ZedTerminal.size_info_used.columns
    rows := ZedTerminal.size_info_used.screen_lines }

def eventLoop0 : EventLoop := EventLoop.new fm0 ZedTerminalHandle.mk pty0 false false

/-- The concrete session ZedTerminal::new constructs when the spawn
succeeds and the Arc allocation is numbered zero. -/
def t0 : ZedTerminal :=
  { loop_tx := { sender := eventLoop0.channel }
    term := fm0
    title := "Terminal"
    event_loop := eventLoop0
    term_size_info := ZedTerminal.size_info_used }

theorem new_alwaysSpawn_eq : ZedTerminal.new alwaysSpawn 0 = NewResult.ok t0 := rfl

/-- Errors a channel send can report. -/
inductive SendError where
  | channelClosed
deriving DecidableEq, Repr

/-- Modelled from the spec: the send operation of the CommandChannel
(Notifier). Its implementation, Notifier and the mio channel it wraps, lives
in the external alacritty_terminal crate and is not among the given sources;
the source only calls it. Per the spec, when the consuming I/O loop has
already stopped, send reports an explicit closed-channel signal instead of
succeeding silently. -/
def Notifier.send (n : Notifier) (_bytes : List Nat) : Except SendError Unit :=
  if n.sender.consumer_stopped then Except.error SendError.channelClosed
  else Except.ok ()

/-- The bytes of the string M, as as_bytes yields them. -/
def mKeyBytes : List Nat := [77]

/-- Embeds ZedTerminal::fake_send_to_pty: it reads the global terminal and
sends the bytes of M through loop_tx. -/
def ZedTerminal.fake_send_to_pty (t : ZedTerminal) : Except SendError Unit :=
  t.loop_tx.send mKeyBytes

/-- What a reader observes of the grid: its declared dimensions and its
cells. -/
structure Snapshot where
  cols : Nat
  rows : Nat
  cells : List (List Char)
deriving DecidableEq, Repr

def ZedTerminal.snapshot (t : ZedTerminal) : Snapshot :=
  { cols := t.term.data.cols, rows := t.term.data.rows, cells := t.term.data.cells }

/-- Pad or truncate one row to exactly c cells. -/
def padRow (row : List Char) (c : Nat) : List Char :=
  row.take c ++ List.replicate (c - row.length) ' '

/-- Pad or truncate a grid to exactly r rows of c cells. -/
def padGrid (cells : List (List Char)) (r c : Nat) : List (List Char) :=
  (cells.take r).map (fun row => padRow row c) ++
    List.replicate (r - cells.length) (List.replicate c ' ')

/-- Modelled from the spec: resize. No resize exists among the given
sources (the observed program never renegotiates a size after spawn); per
spec sections 4.2 and 6, resize(columns, rows, ...) updates both the grid
size and the kernel-side pty size. -/
def ZedTerminal.resize (t : ZedTerminal) (c r : Nat) : ZedTerminal :=
  { t with
    term := { t.term with
      data := { t.term.data with cols := c, rows := r, cells := padGrid t.term.data.cells r c } }
    event_loop := { t.event_loop with
      pty := { t.event_loop.pty with cols := c, rows := r } } }

/-- Embeds the TerminalView struct (its Arc and std Mutex wrappers around
the session carry no behaviour the embedded code exercises). -/
structure TerminalView where
  term : ZedTerminal
deriving DecidableEq, Repr

/-- Embeds the TerminalEl element struct. -/
structure TerminalEl where
  grid_data : FairMutex TermState
deriving DecidableEq, Repr

def TerminalEl.new (term : FairMutex TermState) : TerminalEl :=
  { grid_data := term }

/-- Embeds TerminalView::render: it clones the term handle of the session
into a new TerminalEl (the container styling wrapper carries no state). -/
def TerminalView.render (v : TerminalView) : TerminalEl :=
  TerminalEl.new v.term.term

/-- Embeds gpui Vector2F at the whole-number values this program uses. -/
structure Vector2F where
  x : Nat
  y : Nat
deriving DecidableEq, Repr

/-- Embeds gpui SizeConstraint. -/
structure SizeConstraint where
  min : Vector2F
  max : Vector2F
deriving DecidableEq, Repr

/-- Embeds the font metric the layout reads: the pixel line height the font
cache reports for the default text style. -/
structure FontCache where
  line_height : Nat
deriving DecidableEq, Repr

/-- The characters the display iterator of the grid yields, in row-major
order (each visible cell contributes its character). -/
def TermState.displayChars (st : TermState) : List Char :=
  st.cells.flatten

/-- Split a character sequence at newline characters; always yields at
least one (possibly empty) segment. -/
def splitOnNewlines : List Char → List (List Char)
  | [] => [[]]
  | c :: cs =>
    if c = '\n' then [] :: splitOnNewlines cs
    else (c :: (splitOnNewlines cs).headD []) :: (splitOnNewlines cs).tail

/-- Embeds gpui layout_highlighted_chunks on a single unhighlighted chunk:
it shapes one line per newline-separated segment of the text, producing at
most max_line_count lines (shaping itself is external; the embedding keeps
the text of each shaped line). -/
def layout_highlighted_chunks (chars : List Char) (max_line_count : Nat) : List (List Char) :=
  (splitOnNewlines chars).take max_line_count

/-- Embeds the LayoutState the element produces. -/
structure LayoutState where
  lines : List (List Char)
  line_height : Nat
deriving DecidableEq, Repr

/-- Embeds TerminalEl::layout. It locks the grid, collects the display
iterator into one string, hands that string to layout_highlighted_chunks as
a single chunk with max_line_count equal to the newline count plus one, and
returns the constraint maximum together with the shaped lines and the line
height. The returned TerminalEl is the element state after the call. -/
def TerminalEl.layout (el : TerminalEl) (constraint : SizeConstraint)
    (fc : FontCache) : TerminalEl × Vector2F × LayoutState :=
  let line := el.grid_data.data.displayChars
  let shaped_lines := layout_highlighted_chunks line (line.count '\n' + 1)
  (el, constraint.max, { lines := shaped_lines, line_height := fc.line_height })

/-- Embeds the gpui Event enum to the extent dispatch can receive one. -/
inductive Event where
  | keyDown (keystroke : String)
  | leftMouseDown (x y : Nat)
  | leftMouseUp (x y : Nat)
  | mouseMoved (x y : Nat)
  | scrollWheel (dx dy : Nat)
deriving DecidableEq, Repr

/-- Embeds gpui RectF at whole-number values. -/
structure RectF where
  origin_x : Nat
  origin_y : Nat
  width : Nat
  height : Nat
deriving DecidableEq, Repr

/-- Embeds TerminalEl::dispatch_event. The Bool is the Rust return value;
the list is the sequence of byte payloads the body sends towards the pty
while handling the event (the body performs no sends). -/
def TerminalEl.dispatch_event (_el : TerminalEl) (_event : Event)
    (_bounds _visible_bounds : RectF) (_layout : LayoutState)
    (_paint : Unit) : Bool × List (List Nat) :=
  (false, [])

/-- Embeds rpc::ConnectionId with u32 fields, represented as naturals that
the constructing code keeps below 2 to the 32. -/
structure ConnectionId where
  owner_id : Nat
  id : Nat
deriving DecidableEq, Repr

/-- The Rust as-cast from i32 to u32: the value modulo 2 to the 32 (for any
value in the i32 range this is exactly the two complement reinterpretation
the cast performs). -/
def i32_as_u32 (x : Int) : Nat :=
  (x % (2 ^ 32 : Int)).toNat

namespace channel_buffer_collaborator

/-- Embeds the channel_buffer_collaborator Model row. The id newtypes
(ChannelBufferCollaboratorId, BufferId, ServerId, UserId, ReplicaId) wrap
i32 values, embedded as Int. -/
structure Model where
  id : Int
  buffer_id : Int
  connection_id : Int
  connection_server_id : Int
  connection_lost : Bool
  user_id : Int
  replica_id : Int
deriving DecidableEq, Repr

/-- Embeds Model::connection: owner_id is the server id cast to u32 and id
is the connection id cast to u32. -/
def Model.connection (m : Model) : ConnectionId :=
  { owner_id := i32_as_u32 m.connection_server_id
    id := i32_as_u32 m.connection_id }

/-- Embeds invoking the method on a borrowed receiver: the call yields the
ConnectionId and hands the receiver back unchanged (the method takes an
immutable borrow). -/
def Model.connection_call (m : Model) : ConnectionId × Model :=
  (m.connection, m)

end channel_buffer_collaborator

/-- Further concrete objects used to evaluate the theorems. -/
def el0 : TerminalEl := TerminalView.render { term := t0 }

def el0b : TerminalEl := TerminalEl.new (FairMutex.new 7 term0)

def constraint0 : SizeConstraint := { min := ⟨0, 0⟩, max := ⟨500, 500⟩ }

def constraint1 : SizeConstraint := { min := ⟨0, 0⟩, max := ⟨50, 40⟩ }

def fc0 : FontCache := { line_height := 14 }

def t_stopped : ZedTerminal :=
  { t0 with loop_tx := { sender := { consumer_stopped := true } } }

def fm1 : FairMutex TermState :=
  { arcId := 5, nowServing := 3, nextTicket := 7, data := term0 }

def m0 : channel_buffer_collaborator.Model :=
  { id := 1, buffer_id := 2, connection_id := 10, connection_server_id := 3,
    connection_lost := false, user_id := 4, replica_id := 0 }

theorem splitOnNewlines_ne_nil (l : List Char) : splitOnNewlines l ≠ [] := by
  cases l with
  | nil => simp [splitOnNewlines]
  | cons c cs =>
    simp only [splitOnNewlines]
    split <;> simp

theorem splitOnNewlines_length (l : List Char) :
    (splitOnNewlines l).length = l.count '\n' + 1 := by
  induction l with
  | nil => simp [splitOnNewlines]
  | cons c cs ih =>
    simp only [splitOnNewlines]
    by_cases h : c = '\n'
    · simp [h, List.count_cons, ih]
    · have hne := splitOnNewlines_ne_nil cs
      simp only [if_neg h, List.length_cons, List.length_tail, ih, List.count_cons]
      have : (c == '\n') = false := by simp [h]
      simp [this]

theorem count_flatten_eq_zero (cells : List (List Char))
    (h : ∀ row ∈ cells, ∀ ch ∈ row, ch ≠ '\n') :
    cells.flatten.count '\n' = 0 := by
  rw [List.count_eq_zero]
  intro hmem
  rw [List.mem_flatten] at hmem
  obtain ⟨row, hrow, hch⟩ := hmem
  exact h row hrow '\n' hch rfl

theorem FairMutex.releaseN_nowServing (m : FairMutex α) (n : Nat) :
    (m.releaseN n).nowServing = m.nowServing + n := by
  induction n generalizing m with
  | zero => rfl
  | succ n ih =>
    simp only [FairMutex.releaseN]
    rw [ih]
    simp [FairMutex.release]
    omega

/-- Inversion of a successful ZedTerminal::new: the session it returns is
exactly the one wired from the fixed config, the fixed SizeInfo, the fresh
fair mutex, and the pty that tty::new produced. -/
theorem new_ok_inv (spawnOk : PtyConfig → SizeInfo → Bool) (arcId : Nat) (t : ZedTerminal)
    (h : ZedTerminal.new spawnOk arcId = NewResult.ok t) :
    t.event_loop.pty
        = { config := ZedTerminal.pty_config_used
            spawn_size := ZedTerminal.size_info_used
            cols := ZedTerminal.size_info_used.columns
            rows := ZedTerminal.size_info_used.screen_lines }
      ∧ t.term = FairMutex.new arcId
          (Term.new { pty_config := ZedTerminal.pty_config_used }
            ZedTerminal.size_info_used ZedTerminalHandle.mk)
      ∧ t.event_loop.term = t.term
      ∧ t.term_size_info = ZedTerminal.size_info_used
      ∧ spawnOk ZedTerminal.pty_config_used ZedTerminal.size_info_used = true := by
  rcases Bool.eq_false_or_eq_true
      (spawnOk ZedTerminal.pty_config_used ZedTerminal.size_info_used) with hs | hs
  · simp [ZedTerminal.new, tty_new, hs] at h
    subst h
    exact ⟨rfl, rfl, rfl, rfl, hs⟩
  · simp [ZedTerminal.new, tty_new, hs] at h

/-- C1 counterexample: when the OS cannot allocate a pty, construction does
not return a SpawnFailed error value; the expect on tty::new panics with
the message Could not create tty, so no error value reaches the caller. -/
theorem C1_counterexample :
    ZedTerminal.new neverSpawn 0 = NewResult.panicked "Could not create tty" := rfl

/-- C1 (amended): if the OS cannot allocate a pty or execute the shell,
ZedTerminal::new panics (aborting construction) rather than returning an
error value, with no retry; and for every successful return a pty-attached
child process has been spawned from the config and size the constructor
passed, and is held by the event loop. -/
theorem C1_spawn_failure_panics :
    ∀ (spawnOk : PtyConfig → SizeInfo → Bool) (arcId : Nat),
      (spawnOk ZedTerminal.pty_config_used ZedTerminal.size_info_used = false →
        ZedTerminal.new spawnOk arcId = NewResult.panicked "Could not create tty")
      ∧ ∀ t : ZedTerminal, ZedTerminal.new spawnOk arcId = NewResult.ok t →
          tty_new spawnOk ZedTerminal.pty_config_used ZedTerminal.size_info_used
              = some t.event_loop.pty
            ∧ t.event_loop.pty.config = ZedTerminal.pty_config_used
            ∧ t.event_loop.pty.spawn_size = ZedTerminal.size_info_used := by
  intro spawnOk arcId
  constructor
  · intro h
    simp [ZedTerminal.new, tty_new, h]
  · intro t ht
    obtain ⟨hpty, _, _, _, hs⟩ := new_ok_inv spawnOk arcId t ht
    refine ⟨?_, ?_, ?_⟩
    · rw [hpty]
      simp [tty_new, hs]
    · rw [hpty]
    · rw [hpty]

/-- C1 witness: both branches evaluated at concrete spawn oracles. -/
theorem C1_spawn_failure_panics_witness :
    ZedTerminal.new neverSpawn 0 = NewResult.panicked "Could not create tty"
    ∧ (tty_new alwaysSpawn ZedTerminal.pty_config_used ZedTerminal.size_info_used
          = some t0.event_loop.pty
        ∧ t0.event_loop.pty.config = ZedTerminal.pty_config_used
        ∧ t0.event_loop.pty.spawn_size = ZedTerminal.size_info_used) :=
  ⟨(C1_spawn_failure_panics neverSpawn 0).1 rfl,
   (C1_spawn_failure_panics alwaysSpawn 0).2 t0 new_alwaysSpawn_eq⟩

/-- C2 counterexample: with a local (non-remote) project whose buffer
creation fails, deploy creates no terminal and adds no item, refuting that
a remote project is the only condition blocking creation. -/
theorem C2_counterexample :
    ZedTerminal.deploy false false alwaysSpawn 0 = DeployResult.noop
    ∧ (ZedTerminal.deploy false false alwaysSpawn 0).isDeployed = false :=
  ⟨rfl, rfl⟩

/-- C2 (amended): a remote project propagates the action and creates
nothing; a local project with a failed buffer creation silently creates
nothing; a local project whose buffer creation succeeds and whose pty
spawn succeeds gets a terminal created and added as a view item. -/
theorem C2_deploy_characterisation :
    ∀ (create_buffer_ok : Bool) (spawnOk : PtyConfig → SizeInfo → Bool) (arcId : Nat),
      ZedTerminal.deploy true create_buffer_ok spawnOk arcId = DeployResult.propagated
      ∧ ZedTerminal.deploy false false spawnOk arcId = DeployResult.noop
      ∧ (spawnOk ZedTerminal.pty_config_used ZedTerminal.size_info_used = true →
          (ZedTerminal.deploy false true spawnOk arcId).isDeployed = true) := by
  intro create_buffer_ok spawnOk arcId
  refine ⟨rfl, rfl, ?_⟩
  intro h
  simp [ZedTerminal.deploy, ZedTerminal.new, tty_new, h, DeployResult.isDeployed]

/-- C2 witness: the three cases evaluated at concrete inputs. -/
theorem C2_deploy_characterisation_witness :
    ZedTerminal.deploy true true alwaysSpawn 0 = DeployResult.propagated
    ∧ ZedTerminal.deploy false false alwaysSpawn 0 = DeployResult.noop
    ∧ (ZedTerminal.deploy false true alwaysSpawn 0).isDeployed = true :=
  ⟨(C2_deploy_characterisation true alwaysSpawn 0).1,
   (C2_deploy_characterisation true alwaysSpawn 0).2.1,
   (C2_deploy_characterisation true alwaysSpawn 0).2.2 rfl⟩

/-- C3: at construction the SizeInfo recorded for Term::new equals the
SizeInfo the pty was spawned from (one value flows to both), the grid
dimensions are derived from exactly that SizeInfo, and after resize(c, r)
every snapshot reports exactly c columns and r rows (resize itself is
modelled from the spec, as the given sources never resize). -/
theorem C3_size_negotiation_consistent :
    ∀ (spawnOk : PtyConfig → SizeInfo → Bool) (arcId : Nat) (t : ZedTerminal),
      ZedTerminal.new spawnOk arcId = NewResult.ok t →
      (t.term_size_info = t.event_loop.pty.spawn_size
        ∧ t.term.data.cols = t.term_size_info.columns
        ∧ t.term.data.rows = t.term_size_info.screen_lines
        ∧ t.event_loop.pty.cols = t.term.data.cols
        ∧ t.event_loop.pty.rows = t.term.data.rows)
      ∧ ∀ (s : ZedTerminal) (c r : Nat),
          (ZedTerminal.resize s c r).snapshot.cols = c
          ∧ (ZedTerminal.resize s c r).snapshot.rows = r := by
  intro spawnOk arcId t ht
  obtain ⟨hpty, hterm, _, hsize, _⟩ := new_ok_inv spawnOk arcId t ht
  constructor
  · rw [hpty, hterm, hsize]
    exact ⟨rfl, rfl, rfl, rfl, rfl⟩
  · intro s c r
    exact ⟨rfl, rfl⟩

/-- C3 witness: the consistency facts evaluated on the concretely
constructed session and a concrete resize. -/
theorem C3_size_negotiation_consistent_witness :
    (t0.term_size_info = t0.event_loop.pty.spawn_size
      ∧ t0.term.data.cols = t0.term_size_info.columns
      ∧ t0.term.data.rows = t0.term_size_info.screen_lines
      ∧ t0.event_loop.pty.cols = t0.term.data.cols
      ∧ t0.event_loop.pty.rows = t0.term.data.rows)
    ∧ ((ZedTerminal.resize t0 40 12).snapshot.cols = 40
        ∧ (ZedTerminal.resize t0 40 12).snapshot.rows = 12) :=
  ⟨(C3_size_negotiation_consistent alwaysSpawn 0 t0 new_alwaysSpawn_eq).1,
   (C3_size_negotiation_consistent alwaysSpawn 0 t0 new_alwaysSpawn_eq).2 t0 40 12⟩

set_option maxRecDepth 8192 in
/-- C4 counterexample: the freshly constructed session has a grid of twenty
rows, yet layout shapes exactly one line for it, because the whole visible
grid is collected into a single newline-free string; layout does not
produce one shaped line per grid row. -/
theorem C4_counterexample :
    ((TerminalEl.layout el0 constraint0 fc0).2.2).lines.length = 1
    ∧ el0.grid_data.data.rows = 20
    ∧ ((TerminalEl.layout el0 constraint0 fc0).2.2).lines.length
        ≠ el0.grid_data.data.rows := by
  refine ⟨rfl, rfl, ?_⟩
  decide

/-- C4 (amended): layout produces one shaped line per newline-separated
segment of the concatenation of all visible cells; since grid cells never
hold a newline character, it produces exactly one shaped line regardless of
the row count, and therefore the number of shaped lines never exceeds the
row count of a grid with at least one row. -/
theorem C4_layout_line_count :
    ∀ (el : TerminalEl) (constraint : SizeConstraint) (fc : FontCache),
      ((TerminalEl.layout el constraint fc).2.2).lines.length
          = el.grid_data.data.displayChars.count '\n' + 1
      ∧ ((∀ row ∈ el.grid_data.data.cells, ∀ ch ∈ row, ch ≠ '\n') →
          ((TerminalEl.layout el constraint fc).2.2).lines.length = 1)
      ∧ (1 ≤ el.grid_data.data.rows →
          (∀ row ∈ el.grid_data.data.cells, ∀ ch ∈ row, ch ≠ '\n') →
          ((TerminalEl.layout el constraint fc).2.2).lines.length
            ≤ el.grid_data.data.rows) := by
  intro el constraint fc
  have hlen : ((TerminalEl.layout el constraint fc).2.2).lines.length
      = el.grid_data.data.displayChars.count '\n' + 1 := by
    simp [TerminalEl.layout, layout_highlighted_chunks, List.length_take,
      splitOnNewlines_length]
  refine ⟨hlen, ?_, ?_⟩
  · intro h
    rw [hlen, TermState.displayChars, count_flatten_eq_zero _ h]
  · intro hrows h
    rw [hlen, TermState.displayChars, count_flatten_eq_zero _ h]
    exact hrows

/-- C4 witness: the amended facts evaluated on the concretely constructed
twenty-row grid of blank cells. -/
theorem C4_layout_line_count_witness :
    ((TerminalEl.layout el0 constraint0 fc0).2.2).lines.length
        = el0.grid_data.data.displayChars.count '\n' + 1
    ∧ ((TerminalEl.layout el0 constraint0 fc0).2.2).lines.length = 1
    ∧ ((TerminalEl.layout el0 constraint0 fc0).2.2).lines.length
        ≤ el0.grid_data.data.rows :=
  ⟨(C4_layout_line_count el0 constraint0 fc0).1,
   (C4_layout_line_count el0 constraint0 fc0).2.1 (by decide),
   (C4_layout_line_count el0 constraint0 fc0).2.2 (by decide) (by decide)⟩

/-- C5: layout is read-only — the element state (and with it the grid
cells, cursor, scrollback and dimensions behind its handle) is returned
unchanged — and the produced lines and line height are a function of the
grid data and the font metrics alone (independent of the size constraint
and of which handle to an equal grid is used). -/
theorem C5_layout_read_only_and_pure :
    ∀ (el el2 : TerminalEl) (c c2 : SizeConstraint) (fc : FontCache),
      (TerminalEl.layout el c fc).1 = el
      ∧ (el.grid_data.data = el2.grid_data.data →
          (TerminalEl.layout el c fc).2.2 = (TerminalEl.layout el2 c2 fc).2.2) := by
  intro el el2 c c2 fc
  constructor
  · rfl
  · intro h
    simp only [TerminalEl.layout]
    rw [h]

/-- C5 witness: evaluated on two handles carrying equal grid data under
different size constraints. -/
theorem C5_layout_read_only_and_pure_witness :
    (TerminalEl.layout el0 constraint0 fc0).1 = el0
    ∧ (TerminalEl.layout el0 constraint0 fc0).2.2
        = (TerminalEl.layout el0b constraint1 fc0).2.2 :=
  ⟨(C5_layout_read_only_and_pure el0 el0b constraint0 constraint1 fc0).1,
   (C5_layout_read_only_and_pure el0 el0b constraint0 constraint1 fc0).2 rfl⟩

/-- C6: the send used by fake_send_to_pty reports an explicit closed
channel error exactly when the consuming loop has stopped, and reports
success exactly when it is running; it never reports success on a closed
channel (the send implementation lives in the external alacritty_terminal
crate and is modelled from the spec). -/
theorem C6_send_signals_closed_channel :
    ∀ (t : ZedTerminal),
      (t.loop_tx.sender.consumer_stopped = true →
        t.fake_send_to_pty = Except.error SendError.channelClosed)
      ∧ (t.fake_send_to_pty = Except.ok () ↔
          t.loop_tx.sender.consumer_stopped = false) := by
  intro t
  constructor
  · intro h
    simp [ZedTerminal.fake_send_to_pty, Notifier.send, h]
  · rcases Bool.eq_false_or_eq_true t.loop_tx.sender.consumer_stopped with h | h <;>
      simp [ZedTerminal.fake_send_to_pty, Notifier.send, h]

/-- C6 witness: a session whose consuming loop has stopped receives the
explicit closed-channel signal. -/
theorem C6_send_signals_closed_channel_witness :
    t_stopped.fake_send_to_pty = Except.error SendError.channelClosed :=
  (C6_send_signals_closed_channel t_stopped).1 rfl

/-- C7 counterexample: the successfully constructed session always carries
the fixed pty configuration — shell zsh, no working directory — and
ZedTerminal::new accepts no configuration from its caller, refuting that
shell path, environment overrides and working directory are caller-supplied
parameters. -/
theorem C7_counterexample :
    ZedTerminal.new alwaysSpawn 0 = NewResult.ok t0
    ∧ t0.event_loop.pty.config
        = { shell := some (Program.just "zsh"), working_directory := none, hold := false } :=
  ⟨new_alwaysSpawn_eq, rfl⟩

/-- C7 (amended): the shell program is the fixed constant zsh, the working
directory is fixed to none, and no environment overrides are supplied; the
constructor takes no configuration parameters, so every successful
construction spawns from the same fixed PtyConfig (a TODO in the source
defers populating the config from settings). -/
theorem C7_fixed_shell_configuration :
    ∀ (spawnOk : PtyConfig → SizeInfo → Bool) (arcId : Nat) (t : ZedTerminal),
      ZedTerminal.new spawnOk arcId = NewResult.ok t →
      t.event_loop.pty.config = ZedTerminal.pty_config_used
      ∧ ZedTerminal.pty_config_used.shell = some (Program.just "zsh")
      ∧ ZedTerminal.pty_config_used.working_directory = none := by
  intro spawnOk arcId t ht
  obtain ⟨hpty, _, _, _, _⟩ := new_ok_inv spawnOk arcId t ht
  rw [hpty]
  exact ⟨rfl, rfl, rfl⟩

/-- C7 witness: evaluated on the concretely constructed session. -/
theorem C7_fixed_shell_configuration_witness :
    t0.event_loop.pty.config = ZedTerminal.pty_config_used
    ∧ ZedTerminal.pty_config_used.shell = some (Program.just "zsh")
    ∧ ZedTerminal.pty_config_used.working_directory = none :=
  C7_fixed_shell_configuration alwaysSpawn 0 t0 new_alwaysSpawn_eq

/-- C8: the grid lock is mutually exclusive (two held tickets coincide) and
fair in FIFO order (a waiter holding ticket t is served after exactly
t minus nowServing releases, so neither side is permanently starved; the
fairness discipline of the external FairMutex is modelled from the spec);
and both grid consumers — the event loop and the element the render path
builds — hold handles to the one shared mutex allocation of the session. -/
theorem C8_single_fair_lock :
    (∀ (m : FairMutex TermState) (t1 t2 : Nat), m.holds t1 → m.holds t2 → t1 = t2)
    ∧ (∀ (m : FairMutex TermState) (t : Nat), m.nowServing ≤ t →
        (m.releaseN (t - m.nowServing)).holds t)
    ∧ (∀ (spawnOk : PtyConfig → SizeInfo → Bool) (arcId : Nat) (t : ZedTerminal),
        ZedTerminal.new spawnOk arcId = NewResult.ok t →
        t.event_loop.term.arcId = t.term.arcId
        ∧ (TerminalView.render { term := t }).grid_data.arcId = t.term.arcId) := by
  refine ⟨?_, ?_, ?_⟩
  · intro m t1 t2 h1 h2
    rw [FairMutex.holds] at h1 h2
    omega
  · intro m t h
    rw [FairMutex.holds, FairMutex.releaseN_nowServing]
    omega
  · intro spawnOk arcId t ht
    obtain ⟨_, _, hloop, _, _⟩ := new_ok_inv spawnOk arcId t ht
    exact ⟨by rw [hloop], rfl⟩

/-- C8 witness: the three parts evaluated at a concrete lock state, a
concrete waiting ticket, and the concretely constructed session. -/
theorem C8_single_fair_lock_witness :
    (0 : Nat) = 0
    ∧ (fm1.releaseN (9 - fm1.nowServing)).holds 9
    ∧ (t0.event_loop.term.arcId = t0.term.arcId
        ∧ (TerminalView.render { term := t0 }).grid_data.arcId = t0.term.arcId) :=
  ⟨C8_single_fair_lock.1 fm0 0 0 rfl rfl,
   C8_single_fair_lock.2.1 fm1 9 (by decide),
   C8_single_fair_lock.2.2 alwaysSpawn 0 t0 new_alwaysSpawn_eq⟩

/-- C9: for every input event and every bounds, layout and paint state,
dispatch_event returns false and sends no byte payload towards the pty: the
element consumes no UI event and forwards no keystroke through this path. -/
theorem C9_dispatch_event_consumes_nothing :
    ∀ (el : TerminalEl) (ev : Event) (bounds visible_bounds : RectF)
      (layout : LayoutState) (paint : Unit),
      TerminalEl.dispatch_event el ev bounds visible_bounds layout paint = (false, []) :=
  fun _ _ _ _ _ _ => rfl

/-- C10: connection returns the two i32 fields cast to u32, that is their
values modulo 2 to the 32; the call leaves the receiver unchanged; and for
non-negative (i32 range) values the cast preserves the numeric value
exactly. -/
theorem C10_connection_cast :
    ∀ (m : channel_buffer_collaborator.Model),
      m.connection
          = { owner_id := (m.connection_server_id % (2 ^ 32 : Int)).toNat
              id := (m.connection_id % (2 ^ 32 : Int)).toNat }
      ∧ m.connection_call = (m.connection, m)
      ∧ (0 ≤ m.connection_server_id → m.connection_server_id < 2 ^ 31 →
          ((m.connection).owner_id : Int) = m.connection_server_id)
      ∧ (0 ≤ m.connection_id → m.connection_id < 2 ^ 31 →
          ((m.connection).id : Int) = m.connection_id) := by
  intro m
  refine ⟨rfl, rfl, ?_, ?_⟩ <;>
    intro h1 h2 <;>
    simp only [channel_buffer_collaborator.Model.connection, i32_as_u32] <;>
    omega

/-- C10 witness: evaluated on a concrete collaborator row with non-negative
connection and server ids. -/
theorem C10_connection_cast_witness :
    m0.connection
        = { owner_id := (m0.connection_server_id % (2 ^ 32 : Int)).toNat
            id := (m0.connection_id % (2 ^ 32 : Int)).toNat }
    ∧ m0.connection_call = (m0.connection, m0)
    ∧ ((m0.connection).owner_id : Int) = m0.connection_server_id
    ∧ ((m0.connection).id : Int) = m0.connection_id :=
  ⟨(C10_connection_cast m0).1, (C10_connection_cast m0).2.1,
   (C10_connection_cast m0).2.2.1 (by decide) (by decide),
   (C10_connection_cast m0).2.2.2 (by decide) (by decide)⟩

end Zed



